import Mathlib

/-!
Verification of the jarvis_assistant RAG pipeline.

This file gives a shallow embedding of the core of the repository:
the WhatsApp preprocessor (preprocess.py), the memory store
(memory_store.py) and the RAG engine (rag_engine.py), and proves the
behavioural properties claimed for them.  Machine strings are Lean
strings, Python lists are Lean lists, optional record fields are
Option, and fallible operations return Except.
-/

set_option maxHeartbeats 1000000

/-- Python substring test on character lists: true when pat occurs as a
contiguous run inside the list. -/
def sub_at (pat : List Char) : List Char → Bool
  | [] => pat.isPrefixOf ([] : List Char)
  | c :: rest => pat.isPrefixOf (c :: rest) || sub_at pat rest

/-- Python idiom pat in hay on strings, matching codepoint sequences. -/
def str_contains (hay pat : String) : Bool :=
  sub_at pat.toList hay.toList

/-- Python str.lower, mapping each character: modelled over the
codepoint list so that the kernel can evaluate it. -/
def py_lower (s : String) : String :=
  String.mk (s.toList.map Char.toLower)

/-- Python str.strip: drop whitespace from both ends, modelled over the
codepoint list. -/
def py_strip (s : String) : String :=
  String.mk
    (((s.toList.dropWhile Char.isWhitespace).reverse.dropWhile Char.isWhitespace).reverse)

/-- Python falsy-or on an optional string: a missing or empty value
falls through to the alternative, as in a.get(k) or b. -/
def or_else_str (a : Option String) (b : String) : String :=
  match a with
  | some s => if s = "" then b else s
  | none => b

/-- A raw message record from the WhatsApp JSON export.  Each logical
field may appear under any of the aliased keys tolerated by
preprocess.py; a missing key is none. -/
structure Msg where
  sender_from : Option String := none
  sender : Option String := none
  author : Option String := none
  text : Option String := none
  message : Option String := none
  body : Option String := none
  timestamp : Option String := none
  datetime : Option String := none
  date : Option String := none
  time : Option String := none
  msg_id : Option String := none
  deriving DecidableEq, Repr

/-- msg.get('text') or msg.get('message') or msg.get('body') or '' -/
def get_text (m : Msg) : String :=
  or_else_str m.text (or_else_str m.message (or_else_str m.body ""))

/-- msg.get('timestamp') or msg.get('datetime') or msg.get('date') or
msg.get('time') or '' -/
def get_timestamp (m : Msg) : String :=
  or_else_str m.timestamp
    (or_else_str m.datetime (or_else_str m.date (or_else_str m.time "")))

/-- msg.get('id') or i, rendered as the string used in source_reference. -/
def get_msg_id (m : Msg) (i : Nat) : String :=
  match m.msg_id with
  | some s => if s = "" then toString i else s
  | none => toString i

/-- Keyword list for the business category in _classify_message. -/
def business_words : List String :=
  ["business", "startup", "company", "meeting", "client", "revenue", "pitch", "investor"]

/-- Keyword list for the investment category. -/
def investment_words : List String :=
  ["invest", "stock", "crypto", "trading", "portfolio", "bitcoin", "eth"]

/-- Keyword list for the interest category. -/
def interest_words : List String :=
  ["love", "enjoy", "favorite", "like", "interested", "passion", "hobby"]

/-- Keyword list for the habit category. -/
def habit_words : List String :=
  ["every day", "always", "usually", "routine", "habit", "morning", "evening"]

/-- Keyword list for the personal_trait category. -/
def personal_trait_words : List String :=
  ["i am", "i\x27m", "i feel", "i think", "i believe", "my opinion"]

/-- Keyword list for the preference category. -/
def preference_words : List String :=
  ["prefer", "rather", "better than", "dont like", "don\x27t like", "hate"]

/-- Keyword list for the relationship category. -/
def relationship_words : List String :=
  ["friend", "family", "mom", "dad", "brother", "sister", "relationship"]

/-- Keyword list for the humor category. -/
def humor_words : List String :=
  ["haha", "lol", "lmao", "😂", "🤣", "funny", "joke"]

/-- any(word in text_lower for word in words) -/
def matches_any (text_lower : String) (words : List String) : Bool :=
  words.any (fun w => str_contains text_lower w)

/-- WhatsAppPreprocessor._classify_message: first-match-wins keyword
classification over the lowercased text, in the fixed source order. -/
def classify_message (text : String) : String :=
  let tl := py_lower text
  if matches_any tl business_words then "business"
  else if matches_any tl investment_words then "investment"
  else if matches_any tl interest_words then "interest"
  else if matches_any tl habit_words then "habit"
  else if matches_any tl personal_trait_words then "personal_trait"
  else if matches_any tl preference_words then "preference"
  else if matches_any tl relationship_words then "relationship"
  else if matches_any tl humor_words then "humor"
  else "general"

/-- A structured fact as built by WhatsAppPreprocessor.extract_facts. -/
structure ChatFact where
  ftype : String
  content : String
  source_reference : String
  timestamp : String
  raw_text : String
  deriving DecidableEq, Repr

/-- The enumerate loop body of extract_facts: the index i advances on
every message, including skipped ones. -/
def extract_facts_aux : Nat → List Msg → List ChatFact
  | _, [] => []
  | i, m :: rest =>
    let text := get_text m
    if text = "" ∨ (py_strip text).length < 5 then
      extract_facts_aux (i + 1) rest
    else
      { ftype := classify_message text
        content := py_strip text
        source_reference := "msg_" ++ get_msg_id m i
        timestamp := get_timestamp m
        raw_text := text } :: extract_facts_aux (i + 1) rest

/-- WhatsAppPreprocessor.extract_facts. -/
def extract_facts (msgs : List Msg) : List ChatFact :=
  extract_facts_aux 0 msgs

/-- The possible top-level shapes of the parsed WhatsApp JSON export:
a plain list of messages, an object (whose values of interest are
message lists), or anything else. -/
inductive ExportTop where
  | jlist (msgs : List Msg)
  | jdict (entries : List (String × List Msg))
  | jother
  deriving DecidableEq

/-- The error text raised by load_json on an unrecognised shape. -/
def unknown_structure_error : String :=
  "Unknown JSON structure. Expected list of messages or dict with \x27messages\x27 key"

/-- WhatsAppPreprocessor.load_json, modulo file I/O: dispatch on the
top-level shape of the decoded JSON value. -/
def load_json : ExportTop → Except String (List Msg)
  | ExportTop.jlist msgs => Except.ok msgs
  | ExportTop.jdict entries =>
    match entries.lookup "messages" with
    | some msgs => Except.ok msgs
    | none => Except.error unknown_structure_error
  | ExportTop.jother => Except.error unknown_structure_error

/-- A row of the facts table as read back by
MemoryStore.load_facts_from_db (SELECT id, type, content,
source_reference, timestamp FROM facts). -/
structure DbRow where
  row_id : Nat
  rtype : String
  content : String
  source_reference : String
  timestamp : String
  raw_text : String
  deriving DecidableEq, Repr

/-- The SQLite facts table: rows plus the AUTOINCREMENT counter. -/
structure FactsDb where
  rows : List DbRow
  next_id : Nat
  deriving DecidableEq, Repr

/-- One INSERT INTO facts (...) VALUES (...): appends a row, assigns
the next auto-increment id, never overwrites and never deduplicates. -/
def insert_fact (db : FactsDb) (f : ChatFact) : FactsDb :=
  { rows := db.rows ++
      [{ row_id := db.next_id
         rtype := f.ftype
         content := f.content
         source_reference := f.source_reference
         timestamp := f.timestamp
         raw_text := f.raw_text }]
    next_id := db.next_id + 1 }

/-- WhatsAppPreprocessor.save_to_db: insert every fact in order. -/
def save_to_db (db : FactsDb) (facts : List ChatFact) : FactsDb :=
  facts.foldl insert_fact db

/-- An entry of the Chroma collection: id, document text, embedding
vector and the metadata blob stored by build_vector_index.  Embedding
vectors are modelled as integer lists. -/
structure VecEntry where
  entry_id : String
  document : String
  embedding : List Int
  mtype : String
  msource : String
  mtimestamp : String
  deriving DecidableEq, Repr

/-- Squared L2 distance between two embedding vectors, the metric the
collection ranks query results by. -/
def sq_dist (a b : List Int) : Int :=
  (List.zipWith (fun x y => (x - y) * (x - y)) a b).sum

/-- Comparison of two entries by distance to the query embedding. -/
def dist_le (qe : List Int) (e₁ e₂ : VecEntry) : Prop :=
  sq_dist qe e₁.embedding ≤ sq_dist qe e₂.embedding

instance (qe : List Int) : DecidableRel (dist_le qe) :=
  fun e₁ e₂ => Int.decLe _ _

instance (qe : List Int) : IsTotal VecEntry (dist_le qe) :=
  ⟨fun _ _ => Int.le_total _ _⟩

instance (qe : List Int) : IsTrans VecEntry (dist_le qe) :=
  ⟨fun _ _ _ h₁ h₂ => le_trans h₁ h₂⟩

/-- collection.query(query_embeddings=[qe], n_results=k): the k
entries nearest to qe, in ascending distance order. -/
def collection_query (entries : List VecEntry) (qe : List Int) (k : Nat) : List VecEntry :=
  (List.insertionSort (dist_le qe) entries).take k

/-- One formatted result of MemoryStore.search: document text, the
three metadata fields, and the distance score. -/
structure SearchResult where
  content : String
  rtype : String
  source_reference : String
  timestamp : String
  distance : Int
  deriving DecidableEq, Repr

/-- The result-formatting step of MemoryStore.search applied to one
returned entry. -/
def result_of (qe : List Int) (e : VecEntry) : SearchResult :=
  { content := e.document
    rtype := e.mtype
    source_reference := e.msource
    timestamp := e.mtimestamp
    distance := sq_dist qe e.embedding }

/-- MemoryStore.search: embed the query, ask the collection for the
top_k nearest entries, and format each with its metadata and
distance.  An empty result set yields the empty list. -/
def search (entries : List VecEntry) (embed : String → List Int) (query : String)
    (top_k : Nat) : List SearchResult :=
  (collection_query entries (embed query) top_k).map (result_of (embed query))

/-- The entry built for one database row during build_vector_index:
id stringified, document = content, embedding of the content, and the
metadata blob. -/
def entry_of (embed : String → List Int) (row : DbRow) : VecEntry :=
  { entry_id := toString row.row_id
    document := row.content
    embedding := embed row.content
    mtype := row.rtype
    msource := row.source_reference
    mtimestamp := row.timestamp }

/-- The batched indexing loop of build_vector_index: take batch_size
rows at a time, embed them, and append the entries to the
collection. -/
def add_batches (embed : String → List Int) (batch_size : Nat) (rows : List DbRow)
    (coll : List VecEntry) : List VecEntry :=
  if h : batch_size = 0 then coll
  else if h₂ : rows = [] then coll
  else
    add_batches embed batch_size (rows.drop batch_size)
      (coll ++ (rows.take batch_size).map (entry_of embed))
termination_by rows.length
decreasing_by
  have h₃ : 0 < rows.length := List.length_pos.mpr h₂
  have h₄ : 0 < batch_size := Nat.pos_of_ne_zero h
  rw [List.length_drop]
  omega

/-- MemoryStore.build_vector_index: no facts means no change; a
non-empty collection asks for confirmation and skips the rebuild
unless the reply lowercases to yes, in which case the old collection
is deleted and recreated empty before the batched add; an empty
collection is filled directly. -/
def build_vector_index (rows : List DbRow) (coll : List VecEntry) (response : String)
    (embed : String → List Int) (batch_size : Nat) : List VecEntry :=
  if rows.length = 0 then coll
  else if 0 < coll.length then
    if py_lower response ≠ "yes" then coll
    else add_batches embed batch_size rows []
  else add_batches embed batch_size rows coll

/-- One conversation turn as recorded by RAGEngine.query. -/
structure Turn where
  timestamp : String
  query : String
  response : String
  retrieved_facts_count : Nat
  context_preview : String
  deriving DecidableEq, Repr

/-- One line of the conversations.jsonl log: either a line that parses
back into a turn, or a line that fails JSON parsing. -/
inductive LogLine where
  | good (t : Turn)
  | bad
  deriving DecidableEq

/-- json.loads on one log line: a malformed line yields no turn. -/
def parse_line : LogLine → Option Turn
  | LogLine.good t => some t
  | LogLine.bad => none

/-- The mutable state of a RAGEngine process: the in-memory
conversation history and the durable conversation log (none when the
log file does not exist). -/
structure EngineState where
  history : List Turn
  log_file : Option (List LogLine)
  deriving DecidableEq

/-- RAGEngine._build_context: the placeholder on an empty retrieval,
otherwise the newline-joined [type] content lines. -/
def build_context : List SearchResult → String
  | [] => "No relevant memories found."
  | facts => String.intercalate "\n" (facts.map (fun f => "[" ++ f.rtype ++ "] " ++ f.content))

/-- config.USER_NAME with its default value. -/
def user_name : String := "Arunav"

/-- RAGEngine._build_system_prompt, with config.USER_NAME resolved. -/
def build_system_prompt : String :=
  "You are Jarvis, an AI assistant with complete knowledge of " ++ user_name ++
  "\x27s life, personality, and preferences based on 512 days of WhatsApp chat history.\n\nYour role:\n- You know " ++
  user_name ++ " deeply and personally\n- Respond in a tone that mirrors " ++ user_name ++
  "\x27s communication style\n- Reference specific memories and context when relevant\n- Be helpful, insightful, and conversational\n- Maintain " ++
  user_name ++ "\x27s personality traits in your responses\n- When uncertain, acknowledge it rather than making up information\n\nKey traits to embody:\n- Use the same humor and language style as " ++
  user_name ++ "\n- Reference past conversations and context naturally\n- Be direct and authentic, as a close assistant would be\n- Prioritize accuracy over politeness if there\x27s tension\n\nRemember: You are " ++
  user_name ++ "\x27s personal AI assistant with deep knowledge of their life."

/-- The templated final user message embedding the context block and
the raw query, shared by both generation paths. -/
def current_message (context query : String) : String :=
  "Relevant memories from " ++ user_name ++ "\x27s WhatsApp history:\n\n" ++ context ++
  "\n\n---\n\nQuery: " ++ query ++ "\n\nBased on the memories above and your knowledge of " ++
  user_name ++ ", provide a helpful and personalized response."

/-- The role tags of the chat messages sent to a generation backend. -/
inductive Role where
  | user
  | assistant
  | system
  deriving DecidableEq, Repr

/-- One role-tagged message sent to a generation backend. -/
structure ChatMsg where
  role : Role
  content : String
  deriving DecidableEq, Repr

/-- conversation_history[-5:]: the last n elements of a list.  This
models a Python negative-index slice only at a fixed positive n, as
in its single use at n = 5. -/
def last_n (n : Nat) (l : List α) : List α :=
  l.drop (l.length - n)

/-- The Python slice l[-n:] for an arbitrary n: because -0 == 0, the
slice with n = 0 selects the whole list; for positive n it selects
the last n elements. -/
def py_last (n : Nat) (l : List α) : List α :=
  if n = 0 then l else l.drop (l.length - n)

/-- The history window rendered as alternating user/assistant
messages, as both generation paths do for conversation_history[-5:]. -/
def history_messages (hist : List Turn) : List ChatMsg :=
  (last_n 5 hist).foldr
    (fun t acc => { role := Role.user, content := t.query } ::
      { role := Role.assistant, content := t.response } :: acc) []

/-- The messages list built by RAGEngine._generate_with_anthropic
(the system prompt travels separately as the API system parameter). -/
def build_anthropic_messages (hist : List Turn) (query context : String) : List ChatMsg :=
  history_messages hist ++ [{ role := Role.user, content := current_message context query }]

/-- The messages list built by RAGEngine._generate_with_openai, with
the system prompt as the leading system message. -/
def build_openai_messages (hist : List Turn) (query context : String) : List ChatMsg :=
  { role := Role.system, content := build_system_prompt } ::
    (history_messages hist ++ [{ role := Role.user, content := current_message context query }])

/-- The value returned by RAGEngine.query: response text, retrieved
facts, context, and the metadata fields. -/
structure QueryResult where
  response : String
  retrieved_facts : List SearchResult
  context : String
  facts_retrieved : Nat
  timestamp : String
  deriving DecidableEq, Repr

/-- Appending one well-formed line to the conversation log;
open(path, 'a') creates the file when it is missing. -/
def append_log (f : Option (List LogLine)) (t : Turn) : Option (List LogLine) :=
  match f with
  | none => some [LogLine.good t]
  | some ls => some (ls ++ [LogLine.good t])

/-- RAGEngine.query with the retrieval outcome and the generation
backend passed in: build the context, generate with the pre-existing
history, record the turn in memory and in the log, and return the
response with its metadata. -/
def rag_query (retrieved : List SearchResult)
    (gen : String → String → List Turn → String) (now : String) (user_query : String)
    (s : EngineState) : QueryResult × EngineState :=
  let context := build_context retrieved
  let response_text := gen user_query context s.history
  let turn : Turn :=
    { timestamp := now
      query := user_query
      response := response_text
      retrieved_facts_count := retrieved.length
      context_preview := String.mk (context.toList.take 500) }
  ({ response := response_text
     retrieved_facts := retrieved
     context := context
     facts_retrieved := retrieved.length
     timestamp := now },
   { history := s.history ++ [turn], log_file := append_log s.log_file turn })

/-- RAGEngine.load_conversation_history: a missing log file is a
no-op; otherwise take lines[-limit:] (the whole file when limit is 0,
as for any Python -0 slice) and append the turns that parse, in file
order, to the in-memory history. -/
def load_conversation_history (s : EngineState) (limit : Nat := 20) : EngineState :=
  match s.log_file with
  | none => s
  | some lines =>
    { s with history := s.history ++ (py_last limit lines).filterMap parse_line }

/-- RAGEngine.clear_conversation_history: reset only the in-memory
history. -/
def clear_conversation_history (s : EngineState) : EngineState :=
  { s with history := [] }

/-- Adjacent non-decreasing distances, as a decidable check on a
search result list. -/
def sorted_by_distance : List SearchResult → Bool
  | [] => true
  | [_] => true
  | a :: b :: rest => decide (a.distance ≤ b.distance) && sorted_by_distance (b :: rest)

/-- Decidable check that a message list is an alternation of complete
user/assistant pairs. -/
def pairs_ua : List ChatMsg → Bool
  | [] => true
  | { role := Role.user, content := _ } :: { role := Role.assistant, content := _ } :: rest =>
    pairs_ua rest
  | _ => false

/-- A concrete well-formed message: text present, every timestamp
alias absent. -/
def demo_msg : Msg := { text := some "hello world" }

/-- The fact extract_facts builds from demo_msg. -/
def demo_fact : ChatFact :=
  { ftype := "general"
    content := "hello world"
    source_reference := "msg_0"
    timestamp := ""
    raw_text := "hello world" }

/-- A concrete facts-table row. -/
def demo_row : DbRow :=
  { row_id := 1
    rtype := "general"
    content := "hello world"
    source_reference := "msg_0"
    timestamp := ""
    raw_text := "hello world" }

/-- A concrete pre-existing collection entry. -/
def demo_entry : VecEntry :=
  { entry_id := "9"
    document := "old document"
    embedding := [1, 2]
    mtype := "general"
    msource := "msg_9"
    mtimestamp := "" }

/-- A concrete embedding function for witnesses. -/
def demo_embed : String → List Int :=
  fun s => [Int.ofNat s.length, 0]

/-- A concrete conversation turn for log examples. -/
def demo_turn : Turn :=
  { timestamp := "t0"
    query := "q0"
    response := "r0"
    retrieved_facts_count := 0
    context_preview := "" }

/-- A keyword that occurs in the lowered text makes its list match. -/
theorem matches_any_of_mem {tl w : String} {words : List String}
    (hw : w ∈ words) (h : str_contains tl w = true) :
    matches_any tl words = true :=
  List.any_eq_true.mpr ⟨w, hw, h⟩

/-- C1 (amended): classify_message is a total function into the nine
fixed categories; a text containing both invest and love whose
lowering matches no business keyword classifies as investment (the
earlier of investment and interest in the priority order); a text
matching none of the eight keyword lists classifies as general. -/
theorem classify_message_priority (text : String) :
    classify_message text ∈
      ["business", "investment", "interest", "habit", "personal_trait",
        "preference", "relationship", "humor", "general"]
    ∧ (str_contains (py_lower text) "invest" = true →
        str_contains (py_lower text) "love" = true →
        matches_any (py_lower text) business_words = false →
        classify_message text = "investment")
    ∧ (matches_any (py_lower text) business_words = false →
        matches_any (py_lower text) investment_words = false →
        matches_any (py_lower text) interest_words = false →
        matches_any (py_lower text) habit_words = false →
        matches_any (py_lower text) personal_trait_words = false →
        matches_any (py_lower text) preference_words = false →
        matches_any (py_lower text) relationship_words = false →
        matches_any (py_lower text) humor_words = false →
        classify_message text = "general") := by
  refine ⟨?_, ?_, ?_⟩
  · simp only [classify_message]
    split_ifs <;> simp
  · intro hi _hl hb
    have hm : matches_any (py_lower text) investment_words = true :=
      matches_any_of_mem (by decide) hi
    simp [classify_message, hb, hm]
  · intro h₁ h₂ h₃ h₄ h₅ h₆ h₇ h₈
    simp [classify_message, h₁, h₂, h₃, h₄, h₅, h₆, h₇, h₈]

/-- C1 witness: a concrete text containing invest and love but no
business keyword classifies as investment. -/
theorem classify_message_priority_witness :
    classify_message "i love to invest" = "investment" :=
  (classify_message_priority "i love to invest").2.1 (by decide) (by decide) (by decide)

/-- C1 counterexample: the text love this investor contains both
invest and love, yet classifies as business, not investment, because
investor is a business keyword and business is checked first. -/
theorem classify_message_invest_love_counterexample :
    str_contains (py_lower "love this investor") "invest" = true
    ∧ str_contains (py_lower "love this investor") "love" = true
    ∧ classify_message "love this investor" = "business"
    ∧ classify_message "love this investor" ≠ "investment" := by decide

/-- Pairwise non-decreasing distances imply the adjacent check. -/
theorem sorted_by_distance_of_pairwise :
    ∀ {l : List SearchResult},
      List.Pairwise (fun a b => a.distance ≤ b.distance) l →
      sorted_by_distance l = true := by
  intro l
  induction l with
  | nil => intro _; rfl
  | cons a t ih =>
    intro h
    cases t with
    | nil => rfl
    | cons b t₂ =>
      have h₁ := List.pairwise_cons.mp h
      have hab : a.distance ≤ b.distance := h₁.1 b (List.mem_cons_self _ _)
      have ht := ih h₁.2
      rw [sorted_by_distance]
      simp [hab, ht]

/-- C2: search returns at most top_k results, in non-decreasing
distance order, each equal to the formatted copy of one stored entry
with its metadata and distance; and search over an empty index is the
empty list. -/
theorem search_spec (entries : List VecEntry) (embed : String → List Int)
    (query : String) (top_k : Nat) :
    (search entries embed query top_k).length ≤ top_k
    ∧ sorted_by_distance (search entries embed query top_k) = true
    ∧ search [] embed query top_k = []
    ∧ (search entries embed query top_k).all
        (fun r => entries.any (fun e => decide (r = result_of (embed query) e))) = true := by
  refine ⟨?_, ?_, by simp [search, collection_query], ?_⟩
  · simp only [search, collection_query, List.length_map, List.length_take]
    exact min_le_left _ _
  · have hs : List.Pairwise (dist_le (embed query))
        (List.insertionSort (dist_le (embed query)) entries) :=
      List.sorted_insertionSort _ entries
    have ht : List.Pairwise (dist_le (embed query))
        ((List.insertionSort (dist_le (embed query)) entries).take top_k) :=
      List.Pairwise.sublist (List.take_sublist _ _) hs
    have hm : List.Pairwise
        (fun a b : SearchResult => a.distance ≤ b.distance)
        (((List.insertionSort (dist_le (embed query)) entries).take top_k).map
          (result_of (embed query))) :=
      List.pairwise_map.mpr (ht.imp (fun h => h))
    exact sorted_by_distance_of_pairwise hm
  · rw [List.all_eq_true]
    intro r hr
    obtain ⟨e, he, rfl⟩ := List.mem_map.mp hr
    have he₂ : e ∈ List.insertionSort (dist_le (embed query)) entries :=
      List.mem_of_mem_take he
    have he₃ : e ∈ entries := (List.perm_insertionSort _ entries).mem_iff.mp he₂
    exact List.any_eq_true.mpr ⟨e, he₃, decide_eq_true rfl⟩

/-- C3: when retrieval yields no facts, RAGEngine.query still
proceeds: the context is the placeholder string, generation is
invoked on that placeholder with the existing history, and the
returned metadata reports zero facts retrieved. -/
theorem rag_query_empty_retrieval (gen : String → String → List Turn → String)
    (now user_query : String) (s : EngineState) :
    (rag_query [] gen now user_query s).1.context = "No relevant memories found."
    ∧ (rag_query [] gen now user_query s).1.facts_retrieved = 0
    ∧ (rag_query [] gen now user_query s).1.response =
        gen user_query "No relevant memories found." s.history :=
  ⟨rfl, rfl, rfl⟩

/-- Every extracted fact originates from a listed message whose
trimmed text has length at least five, and carries that trimmed text
as its content. -/
theorem extract_facts_aux_mem :
    ∀ (i : Nat) (msgs : List Msg) (f : ChatFact), f ∈ extract_facts_aux i msgs →
      ∃ m ∈ msgs, f.content = py_strip (get_text m) ∧ 5 ≤ (py_strip (get_text m)).length := by
  intro i msgs
  induction msgs generalizing i with
  | nil => intro f h; simp [extract_facts_aux] at h
  | cons m rest ih =>
    intro f h
    simp only [extract_facts_aux] at h
    split at h
    · obtain ⟨m', hm', hc, hl⟩ := ih (i + 1) f h
      exact ⟨m', List.mem_cons_of_mem _ hm', hc, hl⟩
    · rename_i hcond
      push_neg at hcond
      rcases List.mem_cons.mp h with hf | hf
      · exact ⟨m, List.mem_cons_self _ _, by rw [hf], by omega⟩
      · obtain ⟨m', hm', hc, hl⟩ := ih (i + 1) f hf
        exact ⟨m', List.mem_cons_of_mem _ hm', hc, hl⟩

/-- C4: every fact produced by extract_facts has content equal to the
trimmed text of one of the input messages, that trimmed text is at
least five characters long, and therefore the content itself has
length at least five and is non-empty; in particular no fact ever
arises from a message whose trimmed text is shorter than five. -/
theorem extract_facts_min_length (msgs : List Msg) (f : ChatFact)
    (h : f ∈ extract_facts msgs) :
    5 ≤ f.content.length ∧ f.content ≠ ""
    ∧ ∃ m ∈ msgs, f.content = py_strip (get_text m)
        ∧ 5 ≤ (py_strip (get_text m)).length := by
  obtain ⟨m, hm, hc, hl⟩ := extract_facts_aux_mem 0 msgs f h
  refine ⟨by rw [hc]; exact hl, ?_, m, hm, hc, hl⟩
  intro he
  rw [he] at hc
  rw [← hc] at hl
  simp [String.length] at hl

/-- C4 witness: the single fact extracted from a concrete eleven
character message satisfies the content contract. -/
theorem extract_facts_min_length_witness :
    5 ≤ demo_fact.content.length ∧ demo_fact.content ≠ ""
    ∧ ∃ m ∈ [demo_msg], demo_fact.content = py_strip (get_text m)
        ∧ 5 ≤ (py_strip (get_text m)).length :=
  extract_facts_min_length [demo_msg] demo_fact (by decide)

/-- C5 (amended): a message with no usable text is skipped without
aborting the run; a message missing every timestamp alias is kept
with an empty timestamp rather than skipped; the top-level export
must be a message list or a dict with a messages key, and any other
shape fails the load with the descriptive error. -/
theorem load_and_skip_semantics :
    (∀ (i : Nat) (m : Msg) (rest : List Msg), get_text m = "" →
        extract_facts_aux i (m :: rest) = extract_facts_aux (i + 1) rest)
    ∧ (∀ m : Msg, m.timestamp = none → m.datetime = none → m.date = none →
        m.time = none → get_timestamp m = "")
    ∧ (∀ msgs, load_json (ExportTop.jlist msgs) = Except.ok msgs)
    ∧ (∀ entries msgs, entries.lookup "messages" = some msgs →
        load_json (ExportTop.jdict entries) = Except.ok msgs)
    ∧ (∀ entries, entries.lookup "messages" = none →
        load_json (ExportTop.jdict entries) = Except.error unknown_structure_error)
    ∧ load_json ExportTop.jother = Except.error unknown_structure_error
    ∧ unknown_structure_error ≠ "" := by
  refine ⟨?_, ?_, fun _ => rfl, ?_, ?_, rfl, by decide⟩
  · intro i m rest hm
    simp [extract_facts_aux, hm]
  · intro m h₁ h₂ h₃ h₄
    simp [get_timestamp, or_else_str, h₁, h₂, h₃, h₄]
  · intro entries msgs hl
    simp [load_json, hl]
  · intro entries hl
    simp [load_json, hl]

/-- C5 witness: a concrete textless message is skipped while the run
continues, and a concrete dict without a messages key fails the load
with the descriptive error. -/
theorem load_and_skip_semantics_witness :
    extract_facts_aux 0 [{ : Msg}, demo_msg] = extract_facts_aux 1 [demo_msg]
    ∧ load_json (ExportTop.jdict [("other", [])]) = Except.error unknown_structure_error :=
  ⟨load_and_skip_semantics.1 0 { : Msg} [demo_msg] (by decide),
    load_and_skip_semantics.2.2.2.2.1 [("other", [])] (by decide)⟩

/-- C5 counterexample: a message carrying text but missing every
timestamp alias is not skipped — extraction still produces exactly
one fact from it, with an empty timestamp. -/
theorem extract_keeps_missing_timestamp_counterexample :
    demo_msg.timestamp = none ∧ demo_msg.datetime = none
    ∧ demo_msg.date = none ∧ demo_msg.time = none
    ∧ (extract_facts [demo_msg]).length = 1
    ∧ extract_facts [demo_msg] = [demo_fact]
    ∧ demo_fact.timestamp = "" := by decide

/-- Inserting a fact list appends exactly one row per fact. -/
theorem save_to_db_length :
    ∀ (facts : List ChatFact) (db : FactsDb),
      (save_to_db db facts).rows.length = db.rows.length + facts.length := by
  intro facts
  induction facts with
  | nil => intro db; rfl
  | cons f t ih =>
    intro db
    have h₂ := ih (insert_fact db f)
    simp only [save_to_db, List.foldl_cons] at *
    rw [h₂]
    simp [insert_fact]
    omega

/-- C6: fact insertion is not idempotent — running save_to_db twice
with the same fact list grows the table by exactly twice the list
length, with no deduplication by content or source_reference. -/
theorem save_to_db_not_idempotent (db : FactsDb) (facts : List ChatFact) :
    (save_to_db (save_to_db db facts) facts).rows.length
      = db.rows.length + 2 * facts.length := by
  rw [save_to_db_length, save_to_db_length]
  omega

/-- The rendered history window is always complete user/assistant
pairs. -/
theorem pairs_ua_history :
    ∀ l : List Turn,
      pairs_ua (l.foldr
        (fun t acc => { role := Role.user, content := t.query } ::
          { role := Role.assistant, content := t.response } :: acc) []) = true := by
  intro l
  induction l with
  | nil => rfl
  | cons t ts ih =>
    simp only [List.foldr_cons]
    rw [pairs_ua]
    exact ih

/-- The rendered history window has two messages per turn. -/
theorem history_fold_length :
    ∀ l : List Turn,
      (l.foldr
        (fun t acc => { role := Role.user, content := t.query } ::
          { role := Role.assistant, content := t.response } :: acc)
        ([] : List ChatMsg)).length = 2 * l.length := by
  intro l
  induction l with
  | nil => rfl
  | cons t ts ih =>
    simp only [List.foldr_cons, List.length_cons, ih, List.length_cons]
    omega

/-- last_n keeps at most n elements. -/
theorem last_n_length_le (n : Nat) (l : List α) : (last_n n l).length ≤ n := by
  simp only [last_n, List.length_drop]
  omega

/-- C7: both generation paths pass at most the last five history
turns: the windowed history is a suffix of the full history of length
at most five, it renders as alternating user/assistant pairs (hence
at most ten messages), and the Anthropic and OpenAI message lists are
exactly that window followed by the single templated user message
(with the system persona prepended in the OpenAI path). -/
theorem history_window_bounded (hist : List Turn) (query context : String) :
    (last_n 5 hist).length ≤ 5
    ∧ List.IsSuffix (last_n 5 hist) hist
    ∧ pairs_ua (history_messages hist) = true
    ∧ (history_messages hist).length ≤ 10
    ∧ build_anthropic_messages hist query context
        = history_messages hist ++
            [{ role := Role.user, content := current_message context query }]
    ∧ build_openai_messages hist query context
        = { role := Role.system, content := build_system_prompt } ::
            (history_messages hist ++
              [{ role := Role.user, content := current_message context query }]) := by
  refine ⟨last_n_length_le 5 hist, List.drop_suffix _ _, pairs_ua_history _, ?_, rfl, rfl⟩
  rw [history_messages, history_fold_length]
  have := last_n_length_le 5 hist
  omega

/-- C8: clearing the conversation history empties only the in-memory
history and leaves the durable log byte-for-byte unchanged, so a
fresh process started on the cleared state's log loads exactly what a
fresh process started on the original log would load. -/
theorem clear_history_frame (s : EngineState) (limit : Nat) :
    (clear_conversation_history s).log_file = s.log_file
    ∧ (clear_conversation_history s).history = []
    ∧ load_conversation_history
        { history := [], log_file := (clear_conversation_history s).log_file } limit
      = load_conversation_history { history := [], log_file := s.log_file } limit :=
  ⟨rfl, rfl, rfl⟩

/-- The lines[-limit:] slice is always a suffix of the log. -/
theorem py_last_suffix (n : Nat) (l : List α) : List.IsSuffix (py_last n l) l := by
  rw [py_last]
  split
  · exact List.suffix_refl l
  · exact List.drop_suffix _ _

/-- C10 (amended): load_conversation_history is a no-op when the log
file does not exist; otherwise it appends to the in-memory history,
in file order, exactly the turns parsed from the lines[-limit:] slice
of the log (default 20), skipping every line that fails JSON parsing,
and never touches the log itself; for every positive limit that slice
is the last limit lines, while limit = 0 selects the entire file. -/
theorem load_history_robust (hist : List Turn) (lines : List LogLine) (limit : Nat)
    (a b : List LogLine) :
    load_conversation_history { history := hist, log_file := none } limit
        = { history := hist, log_file := none }
    ∧ (load_conversation_history { history := hist, log_file := some lines } limit).history
        = hist ++ (py_last limit lines).filterMap parse_line
    ∧ (load_conversation_history { history := hist, log_file := some lines } limit).log_file
        = some lines
    ∧ (limit ≠ 0 → (py_last limit lines).length ≤ limit)
    ∧ py_last 0 lines = lines
    ∧ List.IsSuffix (py_last limit lines) lines
    ∧ List.filterMap parse_line (a ++ LogLine.bad :: b)
        = List.filterMap parse_line (a ++ b)
    ∧ load_conversation_history { history := hist, log_file := some lines }
        = load_conversation_history { history := hist, log_file := some lines } 20 := by
  refine ⟨rfl, rfl, rfl, ?_, rfl, py_last_suffix limit lines, ?_, rfl⟩
  · intro h
    rw [py_last, if_neg h, List.length_drop]
    omega
  · simp [List.filterMap_append, List.filterMap_cons, parse_line]

/-- C10 witness: at the concrete limit 20 on a one-line log, the
slice is bounded by the limit. -/
theorem load_history_robust_witness :
    (py_last 20 [LogLine.good demo_turn]).length ≤ 20 :=
  (load_history_robust [] [LogLine.good demo_turn] 20 [] []).2.2.2.1 (by decide)

/-- C10 counterexample: at limit = 0 the program does not read only
the last 0 lines — Python lines[-0:] is the whole file, so loading a
one-line log with limit 0 appends that line's turn to the history. -/
theorem load_history_limit_zero_counterexample :
    (load_conversation_history
        { history := [], log_file := some [LogLine.good demo_turn] } 0).history
      = [demo_turn]
    ∧ ((load_conversation_history
        { history := [], log_file := some [LogLine.good demo_turn] } 0).history).length
      ≠ 0 := by decide

/-- The batched add loop appends one entry per row, in order. -/
theorem add_batches_eq (embed : String → List Int) (batch_size : Nat)
    (hn : batch_size ≠ 0) :
    ∀ (rows : List DbRow) (coll : List VecEntry),
      add_batches embed batch_size rows coll = coll ++ rows.map (entry_of embed) := by
  have H : ∀ (k : Nat) (rows : List DbRow), rows.length ≤ k →
      ∀ coll, add_batches embed batch_size rows coll
        = coll ++ rows.map (entry_of embed) := by
    intro k
    induction k with
    | zero =>
      intro rows hlen coll
      have hr : rows = [] := List.length_eq_zero.mp (Nat.le_zero.mp hlen)
      subst hr
      rw [add_batches]
      simp [hn]
    | succ k ih =>
      intro rows hlen coll
      rw [add_batches, dif_neg hn]
      by_cases hr : rows = []
      · rw [dif_pos hr]
        simp [hr]
      · rw [dif_neg hr]
        rw [ih (rows.drop batch_size)
          (by
            rw [List.length_drop]
            have h₃ : 0 < rows.length := List.length_pos.mpr hr
            have h₄ : 0 < batch_size := Nat.pos_of_ne_zero hn
            omega)]
        rw [List.append_assoc, ← List.map_append, List.take_append_drop]
  intro rows coll
  exact H rows.length rows le_rfl coll

/-- C9: rebuilding a non-empty index with any confirmation reply
other than yes is a no-op that leaves the collection unchanged;
confirming with yes wipes the old collection and re-adds exactly the
current rows; and in every case the outcome is either the untouched
old collection or a fresh index of the rows alone — old and new
entries are never merged. -/
theorem build_vector_index_guard (rows : List DbRow) (coll : List VecEntry)
    (response : String) (embed : String → List Int) (batch_size : Nat) :
    (coll ≠ [] → py_lower response ≠ "yes" →
        build_vector_index rows coll response embed batch_size = coll)
    ∧ (coll ≠ [] → py_lower response = "yes" → rows ≠ [] → batch_size ≠ 0 →
        build_vector_index rows coll response embed batch_size
          = rows.map (entry_of embed))
    ∧ (batch_size ≠ 0 →
        (build_vector_index rows coll response embed batch_size = coll
          ∨ build_vector_index rows coll response embed batch_size
              = rows.map (entry_of embed))) := by
  refine ⟨?_, ?_, ?_⟩
  · intro hc hresp
    by_cases h₀ : rows.length = 0
    · simp [build_vector_index, h₀]
    · have hcl : 0 < coll.length := List.length_pos.mpr hc
      simp [build_vector_index, h₀, hcl, hresp]
  · intro hc hresp hrows hb
    have h₀ : rows.length ≠ 0 := fun h => hrows (List.length_eq_zero.mp h)
    have hcl : 0 < coll.length := List.length_pos.mpr hc
    rw [build_vector_index, if_neg h₀, if_pos hcl, if_neg (by simp [hresp]),
      add_batches_eq embed batch_size hb]
    simp
  · intro hb
    by_cases h₀ : rows.length = 0
    · left
      simp [build_vector_index, h₀]
    · by_cases hcl : 0 < coll.length
      · by_cases hresp : py_lower response ≠ "yes"
        · left
          simp [build_vector_index, h₀, hcl, hresp]
        · right
          rw [build_vector_index, if_neg h₀, if_pos hcl, if_neg hresp,
            add_batches_eq embed batch_size hb]
          simp
      · right
        have hce : coll = [] := by
          rcases List.eq_nil_or_concat coll with h | ⟨ini, lst, h⟩
          · exact h
          · exact absurd (by simp [h]) hcl
        rw [build_vector_index, if_neg h₀, if_neg hcl,
          add_batches_eq embed batch_size hb, hce]
        simp

/-- C9 witness: with one row and a non-empty collection, the reply no
leaves the collection exactly as it was. -/
theorem build_vector_index_guard_witness :
    build_vector_index [demo_row] [demo_entry] "no" demo_embed 100 = [demo_entry] :=
  (build_vector_index_guard [demo_row] [demo_entry] "no" demo_embed 100).1
    (by decide) (by decide)
